import Mathlib

/-!
Verification of the EPICS Grafana datasource backend query pipeline
(`pkg/epics-backend.go`, function `query` and its helpers).

The shallow embedding models:
  * the JSON subset accepted by Go's `encoding/json` for the archiver
    payloads (`PVData` / `PVStringData` schemas), including the distinction
    between syntax errors and `UnmarshalTypeError`;
  * the `": NaN"` → `": null"` byte sanitization (`bytes.Replace`);
  * the binning-parameter selection (`binsize` / `sampleRate` / `pv` param);
  * the unit-conversion switch, the transform switch (derivative, delta,
    truncate-fractional-seconds) and the frame assembly.

Machine floats are modelled by ℝ (ideal arithmetic); timestamps
(`time.Time`) are modelled by ℚ (seconds, i.e. `secs + nanos/1e9`);
decoded JSON numbers are ℚ.  The Go runtime panic caused by
`make([]T, count-1)` with `count = 0` is modelled by the `query`
function returning `none`; every normally-returned `backend.DataResponse`
is `some _`.  The model starts after the query JSON has been unmarshalled
into `queryModel` (the unmarshal of the incoming query itself is host
scaffolding), and the HTTP fetch is an input `Except String String`
(transport error or raw body).
-/

namespace EPICS

/-! ### JSON values, as produced by `encoding/json` parsing -/

/-- A decoded JSON value.  `num q intLit` keeps, besides the rational value,
whether the literal was a pure integer literal (no fraction, no exponent):
Go's `encoding/json` refuses `5.0` for an `int64` target but accepts `5`. -/
inductive JVal where
  | null : JVal
  | jbool : Bool → JVal
  | num : ℚ → Bool → JVal
  | str : String → JVal
  | arr : List JVal → JVal
  | obj : List (String × JVal) → JVal

def isWs (c : Char) : Bool :=
  c = ' ' || c = '\t' || c = '\n' || c = '\r'

def skipWs : List Char → List Char
  | [] => []
  | c :: cs => if isWs c then skipWs cs else c :: cs

def takeDigits : List Char → List Char × List Char
  | [] => ([], [])
  | c :: cs =>
    if c.isDigit then
      let p := takeDigits cs
      (c :: p.1, p.2)
    else ([], c :: cs)

def digitsToNat (ds : List Char) : Nat :=
  ds.foldl (fun a c => a * 10 + (c.toNat - 48)) 0

/-- JSON number grammar (as enforced by Go's scanner): optional minus,
integer part without leading zeros, optional fraction, optional exponent.
Returns the rational value, whether the literal was a pure integer
literal, and the remaining input. -/
def parseNumber (s : List Char) : Option (ℚ × Bool × List Char) :=
  let signed : Bool × List Char :=
    match s with
    | '-' :: r => (true, r)
    | _ => (false, s)
  let neg := signed.1
  match takeDigits signed.2 with
  | ([], _) => none
  | (ds, r1) =>
    if 2 ≤ ds.length && ds.headD '0' = '0' then none
    else
      let afterFrac : Option (ℚ × Bool × List Char) :=
        match r1 with
        | '.' :: r2 =>
          match takeDigits r2 with
          | ([], _) => none
          | (fs, r3) =>
            some ((digitsToNat ds : ℚ) + (digitsToNat fs : ℚ) / ((10 : ℚ) ^ fs.length),
                  false, r3)
        | _ => some ((digitsToNat ds : ℚ), true, r1)
      match afterFrac with
      | none => none
      | some (q1, isInt1, r4) =>
        match r4 with
        | [] => some (if neg then -q1 else q1, isInt1, [])
        | e :: r5 =>
          if e = 'e' || e = 'E' then
            let es : Bool × List Char :=
              match r5 with
              | '+' :: r6 => (false, r6)
              | '-' :: r6 => (true, r6)
              | _ => (false, r5)
            match takeDigits es.2 with
            | ([], _) => none
            | (xs, r7) =>
              let q2 := if es.1 then q1 / (10 : ℚ) ^ digitsToNat xs
                        else q1 * (10 : ℚ) ^ digitsToNat xs
              some (if neg then -q2 else q2, false, r7)
          else some (if neg then -q1 else q1, isInt1, r4)

def escChar (c : Char) : Option Char :=
  if c = '"' then some '"'
  else if c = '\\' then some '\\'
  else if c = '/' then some '/'
  else if c = 'n' then some '\n'
  else if c = 't' then some '\t'
  else if c = 'r' then some '\r'
  else if c = 'b' then some (Char.ofNat 8)
  else if c = 'f' then some (Char.ofNat 12)
  else none

/-- Body of a JSON string literal, after the opening quote. -/
def parseStrBody : Nat → List Char → List Char → Option (String × List Char)
  | 0, _, _ => none
  | _ + 1, _, [] => none
  | fuel + 1, acc, c :: r =>
    if c = '"' then some (String.mk acc.reverse, r)
    else if c = '\\' then
      match r with
      | [] => none
      | e :: r2 =>
        match escChar e with
        | none => none
        | some ec => parseStrBody fuel (ec :: acc) r2
    else parseStrBody fuel (c :: acc) r

def parseNumberJ (s : List Char) : Option (JVal × List Char) :=
  match parseNumber s with
  | none => none
  | some (q, isInt, r) => some (JVal.num q isInt, r)

def lbraceChar : Char := Char.ofNat 123

def rbraceChar : Char := Char.ofNat 125

mutual

def parseJVal : Nat → List Char → Option (JVal × List Char)
  | 0, _ => none
  | fuel + 1, s =>
    match skipWs s with
    | [] => none
    | 'n' :: 'u' :: 'l' :: 'l' :: r => some (JVal.null, r)
    | 't' :: 'r' :: 'u' :: 'e' :: r => some (JVal.jbool true, r)
    | 'f' :: 'a' :: 'l' :: 's' :: 'e' :: r => some (JVal.jbool false, r)
    | '"' :: r =>
      match parseStrBody (fuel + 1) [] r with
      | none => none
      | some (sv, r2) => some (JVal.str sv, r2)
    | c :: cs =>
      if c = lbraceChar then parseObjFields fuel [] cs
      else if c = '[' then parseArrElems fuel [] cs
      else parseNumberJ (c :: cs)

def parseArrElems : Nat → List JVal → List Char → Option (JVal × List Char)
  | 0, _, _ => none
  | fuel + 1, acc, s =>
    match skipWs s with
    | [] => none
    | ']' :: r => if acc.isEmpty then some (JVal.arr [], r) else none
    | s2 =>
      match parseJVal fuel s2 with
      | none => none
      | some (v, r2) =>
        match skipWs r2 with
        | ',' :: r3 => parseArrElems fuel (v :: acc) r3
        | ']' :: r3 => some (JVal.arr (v :: acc).reverse, r3)
        | _ => none

def parseObjFields : Nat → List (String × JVal) → List Char → Option (JVal × List Char)
  | 0, _, _ => none
  | fuel + 1, acc, s =>
    match skipWs s with
    | [] => none
    | c :: r =>
      if c = rbraceChar then
        if acc.isEmpty then some (JVal.obj [], r) else none
      else if c = '"' then
        match parseStrBody (fuel + 1) [] r with
        | none => none
        | some (k, r2) =>
          match skipWs r2 with
          | ':' :: r3 =>
            match parseJVal fuel r3 with
            | none => none
            | some (v, r4) =>
              match skipWs r4 with
              | [] => none
              | ',' :: r5 => parseObjFields fuel ((k, v) :: acc) r5
              | c2 :: r5 =>
                if c2 = rbraceChar then some (JVal.obj ((k, v) :: acc).reverse, r5)
                else none
          | _ => none
      else none

end

/-- Parse a whole body as one JSON value (Go's `Unmarshal` first runs
`checkValid` over the entire input; trailing non-whitespace is a syntax
error).  `none` models a `*json.SyntaxError`. -/
def jparse (body : String) : Option JVal :=
  match parseJVal (2 * body.length + 8) body.data with
  | none => none
  | some (v, rest) => if (skipWs rest).isEmpty then some v else none

/-! ### The `": NaN"` sanitization (`bytes.Replace(body, ": NaN", ": null", -1)`) -/

def replaceAllAux : Nat → List Char → List Char → List Char → List Char
  | 0, s, _, _ => s
  | fuel + 1, s, pat, rep =>
    match s with
    | [] => []
    | c :: rest =>
      if pat.isPrefixOf (c :: rest) then
        rep ++ replaceAllAux fuel ((c :: rest).drop pat.length) pat rep
      else c :: replaceAllAux fuel rest pat rep

def nanPat : List Char := [':', ' ', 'N', 'a', 'N']

def nullRep : List Char := [':', ' ', 'n', 'u', 'l', 'l']

/-- `body = bytes.Replace(body, []byte(": NaN"), []byte(": null"), -1)` -/
def sanitize (body : String) : String :=
  String.mk (replaceAllAux (body.length + 1) body.data nanPat nullRep)

/-! ### Unmarshalling into the `PVData` / `PVStringData` schemas

Go's `encoding/json` semantics modelled here: unknown object keys are
ignored; a JSON `null` is a no-op (the field keeps its zero value); a
value of the wrong JSON kind is an `UnmarshalTypeError`
(`DecErr.typeMismatch`); a number with a fraction or exponent does not
unmarshal into an `int64`; the `PREC` field carries the `,string` tag, and
a non-string (or a string that is not a number literal) produces the plain
`invalid use of string struct tag` error (`DecErr.otherErr`, not a type
mismatch).  Go records the first error and keeps decoding; since the
decoded value is discarded whenever an error is returned, stopping at the
first error is observationally equivalent. -/

/-- Decode-error classification: `typeMismatch` models `*json.UnmarshalTypeError`,
`otherErr` models every other decode error (syntax errors, `,string` tag misuse). -/
inductive DecErr where
  | typeMismatch : String → DecErr
  | otherErr : String → DecErr
deriving DecidableEq

def decErrMsg : DecErr → String
  | DecErr.typeMismatch m => m
  | DecErr.otherErr m => m

/-- One row of the numeric archiver reply (`PVData` inner struct). -/
structure PVSample where
  Nanos : Int
  Secs : Int
  Severity : Int
  Status : Int
  Val : ℚ
deriving DecidableEq

def PVSample.zero : PVSample := { Nanos := 0, Secs := 0, Severity := 0, Status := 0, Val := 0 }

structure PVMeta where
  PREC : ℚ
  name : String
deriving DecidableEq

def PVMeta.zero : PVMeta := { PREC := 0, name := "" }

structure PVDataset where
  data : List PVSample
  meta : PVMeta
deriving DecidableEq

def PVDataset.zero : PVDataset := { data := [], meta := PVMeta.zero }

/-- One row of the string-valued archiver reply (`PVStringData` inner struct). -/
structure PVStringSample where
  Nanos : Int
  Secs : Int
  Severity : Int
  Status : Int
  Val : String
deriving DecidableEq

def PVStringSample.zero : PVStringSample :=
  { Nanos := 0, Secs := 0, Severity := 0, Status := 0, Val := "" }

structure PVStringDataset where
  data : List PVStringSample
  meta : PVMeta
deriving DecidableEq

def PVStringDataset.zero : PVStringDataset := { data := [], meta := PVMeta.zero }

/-- Unmarshal a JSON value into an `int64` field whose current value is `cur`. -/
def asIntField (cur : Int) (v : JVal) : Except DecErr Int :=
  match v with
  | JVal.null => Except.ok cur
  | JVal.num q intLit =>
    if intLit then Except.ok q.num
    else Except.error (DecErr.typeMismatch ("json: cannot unmarshal number into Go value of type int64"))
  | _ => Except.error (DecErr.typeMismatch ("json: cannot unmarshal value into Go value of type int64"))

def sampleSetField (s : PVSample) (k : String) (v : JVal) : Except DecErr PVSample :=
  if k = "nanos" then (asIntField s.Nanos v).map (fun n => { s with Nanos := n })
  else if k = "secs" then (asIntField s.Secs v).map (fun n => { s with Secs := n })
  else if k = "severity" then (asIntField s.Severity v).map (fun n => { s with Severity := n })
  else if k = "status" then (asIntField s.Status v).map (fun n => { s with Status := n })
  else if k = "val" then
    match v with
    | JVal.null => Except.ok s
    | JVal.num q _ => Except.ok { s with Val := q }
    | _ => Except.error (DecErr.typeMismatch ("json: cannot unmarshal value into Go value of type float64"))
  else Except.ok s

def unmarshalSample (j : JVal) : Except DecErr PVSample :=
  match j with
  | JVal.null => Except.ok PVSample.zero
  | JVal.obj fs => fs.foldlM (fun s kv => sampleSetField s kv.1 kv.2) PVSample.zero
  | _ => Except.error (DecErr.typeMismatch ("json: cannot unmarshal value into Go struct"))

/-- `strconv`-style parse of the content of a `,string`-tagged field. -/
def parseNumLit (s : String) : Option ℚ :=
  match parseNumber s.data with
  | some (q, _, []) => some q
  | _ => none

def metaSetField (m : PVMeta) (k : String) (v : JVal) : Except DecErr PVMeta :=
  if k = "PREC" then
    match v with
    | JVal.null => Except.ok m
    | JVal.str sv =>
      match parseNumLit sv with
      | some q => Except.ok { m with PREC := q }
      | none => Except.error (DecErr.otherErr ("json: invalid use of string struct tag"))
    | _ => Except.error (DecErr.otherErr ("json: invalid use of string struct tag"))
  else if k = "name" then
    match v with
    | JVal.null => Except.ok m
    | JVal.str sv => Except.ok { m with name := sv }
    | _ => Except.error (DecErr.typeMismatch ("json: cannot unmarshal value into Go value of type string"))
  else Except.ok m

def unmarshalMeta (cur : PVMeta) (j : JVal) : Except DecErr PVMeta :=
  match j with
  | JVal.null => Except.ok cur
  | JVal.obj fs => fs.foldlM (fun m kv => metaSetField m kv.1 kv.2) cur
  | _ => Except.error (DecErr.typeMismatch ("json: cannot unmarshal value into Go struct"))

def datasetSetField (d : PVDataset) (k : String) (v : JVal) : Except DecErr PVDataset :=
  if k = "data" then
    match v with
    | JVal.null => Except.ok d
    | JVal.arr xs => (xs.mapM unmarshalSample).map (fun ds => { d with data := ds })
    | _ => Except.error (DecErr.typeMismatch ("json: cannot unmarshal value into Go slice"))
  else if k = "meta" then
    (unmarshalMeta d.meta v).map (fun m => { d with meta := m })
  else Except.ok d

def unmarshalDataset (j : JVal) : Except DecErr PVDataset :=
  match j with
  | JVal.null => Except.ok PVDataset.zero
  | JVal.obj fs => fs.foldlM (fun d kv => datasetSetField d kv.1 kv.2) PVDataset.zero
  | _ => Except.error (DecErr.typeMismatch ("json: cannot unmarshal value into Go struct"))

/-- `json.Unmarshal(body, &pvdata)` after a successful parse. -/
def unmarshalPVData (j : JVal) : Except DecErr (List PVDataset) :=
  match j with
  | JVal.null => Except.ok []
  | JVal.arr xs => xs.mapM unmarshalDataset
  | _ => Except.error (DecErr.typeMismatch ("json: cannot unmarshal value into Go slice"))

def sampleSetFieldS (s : PVStringSample) (k : String) (v : JVal) : Except DecErr PVStringSample :=
  if k = "nanos" then (asIntField s.Nanos v).map (fun n => { s with Nanos := n })
  else if k = "secs" then (asIntField s.Secs v).map (fun n => { s with Secs := n })
  else if k = "severity" then (asIntField s.Severity v).map (fun n => { s with Severity := n })
  else if k = "status" then (asIntField s.Status v).map (fun n => { s with Status := n })
  else if k = "val" then
    match v with
    | JVal.null => Except.ok s
    | JVal.str sv => Except.ok { s with Val := sv }
    | _ => Except.error (DecErr.typeMismatch ("json: cannot unmarshal value into Go value of type string"))
  else Except.ok s

def unmarshalSampleS (j : JVal) : Except DecErr PVStringSample :=
  match j with
  | JVal.null => Except.ok PVStringSample.zero
  | JVal.obj fs => fs.foldlM (fun s kv => sampleSetFieldS s kv.1 kv.2) PVStringSample.zero
  | _ => Except.error (DecErr.typeMismatch ("json: cannot unmarshal value into Go struct"))

def datasetSetFieldS (d : PVStringDataset) (k : String) (v : JVal) : Except DecErr PVStringDataset :=
  if k = "data" then
    match v with
    | JVal.null => Except.ok d
    | JVal.arr xs => (xs.mapM unmarshalSampleS).map (fun ds => { d with data := ds })
    | _ => Except.error (DecErr.typeMismatch ("json: cannot unmarshal value into Go slice"))
  else if k = "meta" then
    (unmarshalMeta d.meta v).map (fun m => { d with meta := m })
  else Except.ok d

def unmarshalDatasetS (j : JVal) : Except DecErr PVStringDataset :=
  match j with
  | JVal.null => Except.ok PVStringDataset.zero
  | JVal.obj fs => fs.foldlM (fun d kv => datasetSetFieldS d kv.1 kv.2) PVStringDataset.zero
  | _ => Except.error (DecErr.typeMismatch ("json: cannot unmarshal value into Go struct"))

/-- `json.Unmarshal(body, &pvsdata)` after a successful parse. -/
def unmarshalPVStringData (j : JVal) : Except DecErr (List PVStringDataset) :=
  match j with
  | JVal.null => Except.ok []
  | JVal.arr xs => xs.mapM unmarshalDatasetS
  | _ => Except.error (DecErr.typeMismatch ("json: cannot unmarshal value into Go slice"))

/-- `json.Unmarshal(body, &pvdata)`: parse (whole-input validity first, as Go
does), then walk the value.  A parse failure is a syntax error, never a
type mismatch. -/
def decodeNumericBody (body : String) : Except DecErr (List PVDataset) :=
  match jparse body with
  | none => Except.error (DecErr.otherErr ("json: syntax error"))
  | some j => unmarshalPVData j

/-- `json.Unmarshal(body, &pvsdata)` — the string-schema fallback re-reads
the same (already sanitized) body. -/
def decodeStringBody (body : String) : Except DecErr (List PVStringDataset) :=
  match jparse body with
  | none => Except.error (DecErr.otherErr ("json: syntax error"))
  | some j => unmarshalPVStringData j

/-! ### The query pipeline -/

/-- Unit-conversion codes (the `iota` block). -/
abbrev UNIT_CONVERT_NONE : Int := 0

abbrev UNIT_CONVERT_DEG_TO_RAD : Int := 1

abbrev UNIT_CONVERT_RAD_TO_DEG : Int := 2

abbrev UNIT_CONVERT_RAD_TO_ARCSEC : Int := 3

abbrev UNIT_CONVERT_K_TO_C : Int := 4

abbrev UNIT_CONVERT_C_TO_K : Int := 5

abbrev UNIT_CONVERT_F_TO_C : Int := 6

abbrev UNIT_CONVERT_C_TO_F : Int := 7

/-- Transform codes (the `iota` block). -/
abbrev TRANSFORM_NONE : Int := 0

abbrev TRANSFORM_FIRST_DERIVATVE : Int := 1

abbrev TRANSFORM_FIRST_DERIVATVE_1HZ : Int := 2

abbrev TRANSFORM_FIRST_DERIVATVE_10HZ : Int := 3

abbrev TRANSFORM_FIRST_DERIVATVE_100HZ : Int := 4

abbrev TRANSFORM_DELTA : Int := 5

abbrev TRANSFORM_TRUNCATE_FRAC_SECS : Int := 6

attribute [simp] UNIT_CONVERT_NONE UNIT_CONVERT_DEG_TO_RAD UNIT_CONVERT_RAD_TO_DEG
  UNIT_CONVERT_RAD_TO_ARCSEC UNIT_CONVERT_K_TO_C UNIT_CONVERT_C_TO_K UNIT_CONVERT_F_TO_C
  UNIT_CONVERT_C_TO_F TRANSFORM_NONE TRANSFORM_FIRST_DERIVATVE TRANSFORM_FIRST_DERIVATVE_1HZ
  TRANSFORM_FIRST_DERIVATVE_10HZ TRANSFORM_FIRST_DERIVATVE_100HZ TRANSFORM_DELTA
  TRANSFORM_TRUNCATE_FRAC_SECS

/-- The unmarshalled query JSON (`queryModel`). -/
structure queryModel where
  Format : String
  QueryText : String
  UnitConversion : Int
  Transform : Int
  DisableBinning : Bool
  IntervalMs : Int
  MaxDataPoints : Int
  OrgId : Int
  RefId : String
  Hide : Bool

/-- One typed column vector of a `data.Frame`. -/
inductive FieldData where
  | times : List ℚ → FieldData
  | floats : List ℝ → FieldData
  | strs : List String → FieldData

def FieldData.len : FieldData → Nat
  | FieldData.times ts => ts.length
  | FieldData.floats vs => vs.length
  | FieldData.strs ss => ss.length

/-- `data.Field` (name plus column vector). -/
structure FrameField where
  name : String
  fdata : FieldData

/-- `data.Frame`. -/
structure Frame where
  Name : String
  RefID : String
  Fields : List FrameField

/-- `backend.DataResponse` (frames plus error). -/
structure DataResponse where
  Frames : List Frame
  Error : Option String

/-- `empty_frame`: `data.NewFrame("response")` holding only the two boundary
timestamps of the requested range in its single `time` field. -/
def emptyFrame (fromT toT : ℚ) : Frame :=
  { Name := "response", RefID := "",
    Fields := [{ name := "time", fdata := FieldData.times [fromT, toT] }] }

/-- Binning-parameter selection (`querylength` / `binsize` / `sampleRate`):
`binsize := math.Floor(querylength / float64(query.MaxDataPoints))`, then
raw when binning is disabled or `binsize < 1`. -/
def sampleRateOf (qm : queryModel) (fromT toT : ℚ) (maxDataPoints : Int) : Int :=
  let querylength : ℚ := toT - fromT
  let binsize : Int := ⌊querylength / (maxDataPoints : ℚ)⌋
  if qm.DisableBinning then 0
  else if binsize < 1 then 0
  else binsize

/-- The `pv` query parameter: `lastSample_<N>(<channel>)` when the archiver
is asked to decimate, the bare channel name otherwise. -/
def pvSpec (qm : queryModel) (fromT toT : ℚ) (maxDataPoints : Int) : String :=
  let sampleRate := sampleRateOf qm fromT toT maxDataPoints
  if sampleRate > 0 then
    "lastSample_" ++ toString sampleRate ++ "(" ++ qm.QueryText ++ ")"
  else qm.QueryText

/-- The unit-conversion `switch`: `none` is the `default` branch (the early
return with the `Unknown unit conversion` error). -/
noncomputable def unitConvert (uc : Int) (v : ℝ) : Option ℝ :=
  if uc = UNIT_CONVERT_NONE then some v
  else if uc = UNIT_CONVERT_DEG_TO_RAD then some (v * (Real.pi / 180))
  else if uc = UNIT_CONVERT_RAD_TO_DEG then some (v * (180 / Real.pi))
  else if uc = UNIT_CONVERT_RAD_TO_ARCSEC then some (v * (3600 * 180 / Real.pi))
  else if uc = UNIT_CONVERT_K_TO_C then some (v + 273.15)
  else if uc = UNIT_CONVERT_C_TO_K then some (v - 273.15)
  else if uc = UNIT_CONVERT_F_TO_C then some ((v - 32) * 5 / 9)
  else if uc = UNIT_CONVERT_C_TO_F then some (v * 9 / 5 + 32)
  else none

/-- The per-row conversion loop: the `default` branch returns from `query`
as soon as the first row is processed, so the whole loop fails exactly when
the row list is non-empty and the code is unknown. -/
noncomputable def convertSamples (uc : Int) (rows : List PVSample) : Option (List ℝ) :=
  match rows with
  | [] => some []
  | r :: rs =>
    match unitConvert uc (r.Val : ℝ) with
    | none => none
    | some v => (convertSamples uc rs).map (fun vs => v :: vs)

/-- Timestamp reconstruction (`time.Unix(secs, nanos)`, in seconds), with
the fractional part dropped when the truncate transform is active. -/
def sampleTime (transform : Int) (secs nanos : Int) : ℚ :=
  if transform = TRANSFORM_TRUNCATE_FRAC_SECS then (secs : ℚ)
  else (secs : ℚ) + (nanos : ℚ) / 1000000000

/-- Go's `math.Round` (round half away from zero), in ideal real arithmetic. -/
noncomputable def goRound (x : ℝ) : ℝ :=
  if x < 0 then -((⌊-x + 1 / 2⌋ : ℤ) : ℝ) else ((⌊x + 1 / 2⌋ : ℤ) : ℝ)

/-- The rounding applied to `dvdt` by the 1Hz/10Hz/100Hz derivative variants. -/
noncomputable def derivRound (transform : Int) (dvdt : ℝ) : ℝ :=
  if transform = TRANSFORM_FIRST_DERIVATVE_1HZ then goRound dvdt
  else if transform = TRANSFORM_FIRST_DERIVATVE_10HZ then goRound (dvdt * 10) / 10
  else if transform = TRANSFORM_FIRST_DERIVATVE_100HZ then goRound (dvdt * 100) / 100
  else dvdt

/-- The first-derivative loop: for `i` in `1..count-1`, timestamp `times[i]`
and value `(values[i]-values[i-1]) / (times[i]-times[i-1]).Seconds()`. -/
noncomputable def derivList (transform : Int) : List ℚ → List ℝ → List (ℚ × ℝ)
  | t0 :: t1 :: ts, v0 :: v1 :: vs =>
    (t1, derivRound transform ((v1 - v0) / ((t1 - t0 : ℚ) : ℝ))) ::
      derivList transform (t1 :: ts) (v1 :: vs)
  | _, _ => []

/-- The delta loop: timestamp `times[i]`, value `values[i]-values[i-1]`,
elapsed time ignored. -/
noncomputable def deltaList : List ℚ → List ℝ → List (ℚ × ℝ)
  | _t0 :: t1 :: ts, v0 :: v1 :: vs => (t1, v1 - v0) :: deltaList (t1 :: ts) (v1 :: vs)
  | _, _ => []

/-- The transform `switch`.  `none` models the runtime panic of
`make([]time.Time, count-1)` when `count = 0` (negative slice length); the
`Except.error` result is the `default` branch. -/
noncomputable def applyTransform (transform : Int) (times : List ℚ) (values : List ℝ) :
    Option (Except String (List ℚ × List ℝ)) :=
  if transform = TRANSFORM_NONE then some (Except.ok (times, values))
  else if transform = TRANSFORM_FIRST_DERIVATVE ∨ transform = TRANSFORM_FIRST_DERIVATVE_1HZ ∨
      transform = TRANSFORM_FIRST_DERIVATVE_10HZ ∨ transform = TRANSFORM_FIRST_DERIVATVE_100HZ then
    if times.length = 0 then none
    else
      let d := derivList transform times values
      some (Except.ok (d.map Prod.fst, d.map Prod.snd))
  else if transform = TRANSFORM_DELTA then
    if times.length = 0 then none
    else
      let d := deltaList times values
      some (Except.ok (d.map Prod.fst, d.map Prod.snd))
  else if transform = TRANSFORM_TRUNCATE_FRAC_SECS then some (Except.ok (times, values))
  else some (Except.error ("Unknown transform: " ++ toString transform))

/-- The numeric path after a successful numeric-schema decode: conversion
loop, transform switch, final frame (`Value` column then `Time` column). -/
noncomputable def numericStage (qm : queryModel) (fromT toT : ℚ) (pvdata : List PVDataset) :
    Option DataResponse :=
  let rows := (pvdata.map PVDataset.data).flatten
  match convertSamples qm.UnitConversion rows with
  | none =>
    some { Frames := [emptyFrame fromT toT],
           Error := some ("Unknown unit conversion: " ++ toString qm.UnitConversion) }
  | some values =>
    let times := rows.map (fun r => sampleTime qm.Transform r.Secs r.Nanos)
    match applyTransform qm.Transform times values with
    | none => none
    | some (Except.error e) => some { Frames := [emptyFrame fromT toT], Error := some e }
    | some (Except.ok (ts, vs)) =>
      some { Frames := [{ Name := qm.QueryText, RefID := qm.RefId,
                          Fields := [{ name := "Value", fdata := FieldData.floats vs },
                                     { name := "Time", fdata := FieldData.times ts }] }],
             Error := none }

/-- The string fallback path: the decoded strings are shipped back as-is
(`time` column then `values` column), with no conversion and no transform
switch (only the decode-stage timestamp truncation can apply). -/
def stringStage (qm : queryModel) (pvsdata : List PVStringDataset) : DataResponse :=
  let rows := (pvsdata.map PVStringDataset.data).flatten
  { Frames := [{ Name := qm.QueryText, RefID := qm.RefId,
                 Fields := [{ name := "time",
                              fdata := FieldData.times (rows.map (fun r => sampleTime qm.Transform r.Secs r.Nanos)) },
                            { name := "values",
                              fdata := FieldData.strs (rows.map PVStringSample.Val) }] }],
    Error := none }

/-- Everything from the sanitized body on: numeric decode, string fallback
on a type mismatch, fatal decode error otherwise. -/
noncomputable def queryAfterDecode (qm : queryModel) (fromT toT : ℚ) (body : String) :
    Option DataResponse :=
  match decodeNumericBody body with
  | Except.ok pvdata => numericStage qm fromT toT pvdata
  | Except.error (DecErr.typeMismatch _) =>
    match decodeStringBody body with
    | Except.ok pvsdata => some (stringStage qm pvsdata)
    | Except.error e => some { Frames := [emptyFrame fromT toT], Error := some (decErrMsg e) }
  | Except.error (DecErr.otherErr m) =>
    some { Frames := [emptyFrame fromT toT], Error := some m }

/-- `func (ds *EPICSDatasource) query(...)`, from the point where the query
JSON has been unmarshalled into `qm`.  `fetch` is the outcome of the HTTP
round-trip (`client.Do` + `ioutil.ReadAll`); `none` models the runtime
panic on the zero-sample derivative/delta path. -/
noncomputable def query (qm : queryModel) (fromT toT : ℚ) (_maxDataPoints : Int)
    (fetch : Except String String) : Option DataResponse :=
  if qm.Hide then some { Frames := [], Error := none }
  else if qm.QueryText = "" then some { Frames := [emptyFrame fromT toT], Error := none }
  else
    match fetch with
    | Except.error e => some { Frames := [emptyFrame fromT toT], Error := some e }
    | Except.ok rawBody => queryAfterDecode qm fromT toT (sanitize rawBody)

/-! ### Control-flow lemmas for `query` -/

theorem query_hide_eq (qm : queryModel) (fromT toT : ℚ) (mdp : Int) (fetch : Except String String)
    (h : qm.Hide = true) :
    query qm fromT toT mdp fetch = some { Frames := [], Error := none } := by
  simp [query, h]

theorem query_emptyText_eq (qm : queryModel) (fromT toT : ℚ) (mdp : Int)
    (fetch : Except String String) (h1 : qm.Hide = false) (h2 : qm.QueryText = "") :
    query qm fromT toT mdp fetch = some { Frames := [emptyFrame fromT toT], Error := none } := by
  simp [query, h1, h2]

theorem query_fetchErr_eq (qm : queryModel) (fromT toT : ℚ) (mdp : Int) (e : String)
    (h1 : qm.Hide = false) (h2 : qm.QueryText ≠ "") :
    query qm fromT toT mdp (Except.error e) =
      some { Frames := [emptyFrame fromT toT], Error := some e } := by
  simp [query, h1, h2]

theorem query_ok_eq (qm : queryModel) (fromT toT : ℚ) (mdp : Int) (raw : String)
    (h1 : qm.Hide = false) (h2 : qm.QueryText ≠ "") :
    query qm fromT toT mdp (Except.ok raw) = queryAfterDecode qm fromT toT (sanitize raw) := by
  simp [query, h1, h2]

theorem queryAfterDecode_numOk (qm : queryModel) (fromT toT : ℚ) (body : String)
    (pvdata : List PVDataset) (h : decodeNumericBody body = Except.ok pvdata) :
    queryAfterDecode qm fromT toT body = numericStage qm fromT toT pvdata := by
  unfold queryAfterDecode
  rw [h]

theorem queryAfterDecode_fallback_ok (qm : queryModel) (fromT toT : ℚ) (body : String)
    (m : String) (pvsdata : List PVStringDataset)
    (h : decodeNumericBody body = Except.error (DecErr.typeMismatch m))
    (h2 : decodeStringBody body = Except.ok pvsdata) :
    queryAfterDecode qm fromT toT body = some (stringStage qm pvsdata) := by
  unfold queryAfterDecode
  rw [h, h2]

theorem queryAfterDecode_fallback_err (qm : queryModel) (fromT toT : ℚ) (body : String)
    (m : String) (e : DecErr)
    (h : decodeNumericBody body = Except.error (DecErr.typeMismatch m))
    (h2 : decodeStringBody body = Except.error e) :
    queryAfterDecode qm fromT toT body =
      some { Frames := [emptyFrame fromT toT], Error := some (decErrMsg e) } := by
  unfold queryAfterDecode
  rw [h, h2]

theorem queryAfterDecode_otherErr (qm : queryModel) (fromT toT : ℚ) (body : String) (m : String)
    (h : decodeNumericBody body = Except.error (DecErr.otherErr m)) :
    queryAfterDecode qm fromT toT body =
      some { Frames := [emptyFrame fromT toT], Error := some m } := by
  unfold queryAfterDecode
  rw [h]

/-! ### Conversion-loop lemmas -/

theorem unitConvert_isSome_iff (uc : Int) (v : ℝ) :
    (unitConvert uc v).isSome = true ↔ (0 ≤ uc ∧ uc ≤ 7) := by
  unfold unitConvert UNIT_CONVERT_NONE UNIT_CONVERT_DEG_TO_RAD UNIT_CONVERT_RAD_TO_DEG
    UNIT_CONVERT_RAD_TO_ARCSEC UNIT_CONVERT_K_TO_C UNIT_CONVERT_C_TO_K UNIT_CONVERT_F_TO_C
    UNIT_CONVERT_C_TO_F
  split_ifs with h0 h1 h2 h3 h4 h5 h6 h7 <;> simp <;> omega

theorem convertSamples_length (uc : Int) :
    (rows : List PVSample) → (vs : List ℝ) → convertSamples uc rows = some vs →
    vs.length = rows.length
  | [], vs, h => by
    simp [convertSamples] at h
    simp [← h]
  | r :: rs, vs, h => by
    unfold convertSamples at h
    cases hc : unitConvert uc (r.Val : ℝ) with
    | none => rw [hc] at h; simp at h
    | some v =>
      rw [hc] at h
      cases hr : convertSamples uc rs with
      | none => rw [hr] at h; simp at h
      | some ws =>
        rw [hr] at h
        simp at h
        have ih := convertSamples_length uc rs ws hr
        simp [← h, ih]

theorem convertSamples_valid (uc : Int) (h : 0 ≤ uc ∧ uc ≤ 7) :
    (rows : List PVSample) →
    ∃ vs, convertSamples uc rows = some vs ∧ vs.length = rows.length
  | [] => ⟨[], by simp [convertSamples]⟩
  | r :: rs => by
    obtain ⟨vs, hvs, hlen⟩ := convertSamples_valid uc h rs
    have hs : (unitConvert uc (r.Val : ℝ)).isSome = true := (unitConvert_isSome_iff _ _).mpr h
    obtain ⟨v, hv⟩ := Option.isSome_iff_exists.mp hs
    refine ⟨v :: vs, ?_, by simp [hlen]⟩
    unfold convertSamples
    rw [hv, hvs]
    rfl

theorem convertSamples_invalid (uc : Int) (h : ¬(0 ≤ uc ∧ uc ≤ 7)) (r : PVSample)
    (rs : List PVSample) : convertSamples uc (r :: rs) = none := by
  have hc : unitConvert uc (r.Val : ℝ) = none := by
    cases hc : unitConvert uc (r.Val : ℝ) with
    | none => rfl
    | some v =>
      exact absurd ((unitConvert_isSome_iff uc (r.Val : ℝ)).mp (by simp [hc])) h
  unfold convertSamples
  rw [hc]

/-! ### Transform-switch lemmas -/

theorem applyTransform_passthrough (transform : Int) (ts : List ℚ) (vs : List ℝ)
    (h : transform = 0 ∨ transform = 6) :
    applyTransform transform ts vs = some (Except.ok (ts, vs)) := by
  rcases h with h | h <;> subst h <;> simp [applyTransform]

theorem applyTransform_deriv (transform : Int) (ts : List ℚ) (vs : List ℝ)
    (h : transform = 1 ∨ transform = 2 ∨ transform = 3 ∨ transform = 4)
    (hne : ¬ ts.length = 0) :
    applyTransform transform ts vs =
      some (Except.ok ((derivList transform ts vs).map Prod.fst,
                       (derivList transform ts vs).map Prod.snd)) := by
  rcases h with h | h | h | h <;> subst h <;> simp [applyTransform, hne]

theorem applyTransform_delta (ts : List ℚ) (vs : List ℝ) (hne : ¬ ts.length = 0) :
    applyTransform TRANSFORM_DELTA ts vs =
      some (Except.ok ((deltaList ts vs).map Prod.fst, (deltaList ts vs).map Prod.snd)) := by
  simp [applyTransform, hne]

theorem applyTransform_panic (transform : Int) (ts : List ℚ) (vs : List ℝ)
    (h : 1 ≤ transform ∧ transform ≤ 5) (h0 : ts.length = 0) :
    applyTransform transform ts vs = none := by
  obtain ⟨hlo, hhi⟩ := h
  interval_cases transform <;> simp [applyTransform, h0]

theorem applyTransform_invalid (transform : Int) (ts : List ℚ) (vs : List ℝ)
    (h : ¬(0 ≤ transform ∧ transform ≤ 6)) :
    applyTransform transform ts vs =
      some (Except.error ("Unknown transform: " ++ toString transform)) := by
  unfold applyTransform TRANSFORM_NONE TRANSFORM_FIRST_DERIVATVE TRANSFORM_FIRST_DERIVATVE_1HZ
    TRANSFORM_FIRST_DERIVATVE_10HZ TRANSFORM_FIRST_DERIVATVE_100HZ TRANSFORM_DELTA
    TRANSFORM_TRUNCATE_FRAC_SECS
  have h1 : ¬ transform = 0 := by omega
  have h2 : ¬ (transform = 1 ∨ transform = 2 ∨ transform = 3 ∨ transform = 4) := by omega
  have h3 : ¬ transform = 5 := by omega
  have h4 : ¬ transform = 6 := by omega
  rw [if_neg h1, if_neg h2, if_neg h3, if_neg h4]

/-! ### Derivative / delta loop lemmas -/

theorem derivList_map_fst (transform : Int) :
    (ts : List ℚ) → (vs : List ℝ) → ts.length = vs.length →
    (derivList transform ts vs).map Prod.fst = ts.tail
  | [], [], _ => by simp [derivList]
  | [], _ :: _, h => by simp at h
  | [_], [], h => by simp at h
  | [_], [_], _ => by simp [derivList]
  | _ :: _ :: _, [], h => by simp at h
  | _ :: _ :: _, [_], h => by simp at h
  | t0 :: t1 :: ts, v0 :: v1 :: vs, h => by
    have ih := derivList_map_fst transform (t1 :: ts) (v1 :: vs) (by simpa using h)
    simp only [derivList, List.map_cons, ih]
    simp

theorem derivList_snd_getD (transform : Int) :
    (ts : List ℚ) → (vs : List ℝ) → ts.length = vs.length →
    (i : ℕ) → i + 1 < ts.length →
    ((derivList transform ts vs).map Prod.snd).getD i 0 =
      derivRound transform
        ((vs.getD (i + 1) 0 - vs.getD i 0) /
          ((ts.getD (i + 1) 0 - ts.getD i 0 : ℚ) : ℝ))
  | [], _, _, i, hi => by simp at hi
  | [_], _, _, i, hi => by simp at hi
  | _ :: _ :: _, [], h, _, _ => by simp at h
  | _ :: _ :: _, [_], h, _, _ => by simp at h
  | t0 :: t1 :: ts, v0 :: v1 :: vs, h, 0, _ => by
    simp [derivList]
  | t0 :: t1 :: ts, v0 :: v1 :: vs, h, i + 1, hi => by
    have ih := derivList_snd_getD transform (t1 :: ts) (v1 :: vs) (by simpa using h) i
      (by simpa using hi)
    simpa [derivList] using ih

theorem deltaList_map_fst :
    (ts : List ℚ) → (vs : List ℝ) → ts.length = vs.length →
    (deltaList ts vs).map Prod.fst = ts.tail
  | [], [], _ => by simp [deltaList]
  | [], _ :: _, h => by simp at h
  | [_], [], h => by simp at h
  | [_], [_], _ => by simp [deltaList]
  | _ :: _ :: _, [], h => by simp at h
  | _ :: _ :: _, [_], h => by simp at h
  | t0 :: t1 :: ts, v0 :: v1 :: vs, h => by
    have ih := deltaList_map_fst (t1 :: ts) (v1 :: vs) (by simpa using h)
    simp only [deltaList, List.map_cons, ih]
    simp

theorem deltaList_snd_getD :
    (ts : List ℚ) → (vs : List ℝ) → ts.length = vs.length →
    (i : ℕ) → i + 1 < ts.length →
    ((deltaList ts vs).map Prod.snd).getD i 0 = vs.getD (i + 1) 0 - vs.getD i 0
  | [], _, _, i, hi => by simp at hi
  | [_], _, _, i, hi => by simp at hi
  | _ :: _ :: _, [], h, _, _ => by simp at h
  | _ :: _ :: _, [_], h, _, _ => by simp at h
  | t0 :: t1 :: ts, v0 :: v1 :: vs, h, 0, _ => by
    simp [deltaList]
  | t0 :: t1 :: ts, v0 :: v1 :: vs, h, i + 1, hi => by
    have ih := deltaList_snd_getD (t1 :: ts) (v1 :: vs) (by simpa using h) i (by simpa using hi)
    simpa [deltaList] using ih

/-! ### Stage-level characterizations -/

/-- Every field of the frame has the same number of entries. -/
def frameWF (fr : Frame) : Prop :=
  ∀ f1 ∈ fr.Fields, ∀ f2 ∈ fr.Fields, f1.fdata.len = f2.fdata.len

theorem emptyFrame_wf (fromT toT : ℚ) : frameWF (emptyFrame fromT toT) := by
  intro f1 h1 f2 h2
  simp [emptyFrame] at h1 h2
  rw [h1, h2]

theorem applyTransform_ok_len (transform : Int) (ts ts' : List ℚ) (vs vs' : List ℝ)
    (hlen : ts.length = vs.length)
    (h : applyTransform transform ts vs = some (Except.ok (ts', vs'))) :
    ts'.length = vs'.length ∧
      (if 1 ≤ transform ∧ transform ≤ 5 then ts'.length = ts.length - 1
       else ts'.length = ts.length) := by
  unfold applyTransform at h
  split_ifs at h with h1 h2 h3 h4 h5 h6
  · obtain ⟨hts, hvs⟩ : ts = ts' ∧ vs = vs' := by simpa using h
    subst hts
    subst hvs
    simp at h1
    simp [h1, hlen]
  · obtain ⟨hts, hvs⟩ :
        (derivList transform ts vs).map Prod.fst = ts' ∧
        (derivList transform ts vs).map Prod.snd = vs' := by simpa using h
    have hfst := derivList_map_fst transform ts vs hlen
    have h15 : 1 ≤ transform ∧ transform ≤ 5 := by simp at h2; omega
    have hlenD : (derivList transform ts vs).length = ts.length - 1 := by
      simpa using congrArg List.length hfst
    rw [← hts, ← hvs]
    simp [h15, hfst, hlenD]
  · obtain ⟨hts, hvs⟩ :
        (deltaList ts vs).map Prod.fst = ts' ∧
        (deltaList ts vs).map Prod.snd = vs' := by simpa using h
    have hfst := deltaList_map_fst ts vs hlen
    have h15 : 1 ≤ transform ∧ transform ≤ 5 := by simp at h4; omega
    have hlenD : (deltaList ts vs).length = ts.length - 1 := by
      simpa using congrArg List.length hfst
    rw [← hts, ← hvs]
    simp [h15, hfst, hlenD]
  · obtain ⟨hts, hvs⟩ : ts = ts' ∧ vs = vs' := by simpa using h
    subst hts
    subst hvs
    simp at h6
    have h15 : ¬ (1 ≤ transform ∧ transform ≤ 5) := by omega
    simp [h15, hlen]
  · simp at h

theorem numericStage_convNone (qm : queryModel) (fromT toT : ℚ) (pvdata : List PVDataset)
    (hc : convertSamples qm.UnitConversion ((pvdata.map PVDataset.data).flatten) = none) :
    numericStage qm fromT toT pvdata =
      some { Frames := [emptyFrame fromT toT],
             Error := some ("Unknown unit conversion: " ++ toString qm.UnitConversion) } := by
  simp only [numericStage, hc]

theorem numericStage_ok_frame (qm : queryModel) (fromT toT : ℚ) (pvdata : List PVDataset)
    (values : List ℝ) (ts' : List ℚ) (vs' : List ℝ)
    (hc : convertSamples qm.UnitConversion ((pvdata.map PVDataset.data).flatten) = some values)
    (ha : applyTransform qm.Transform
        ((pvdata.map PVDataset.data).flatten.map (fun r => sampleTime qm.Transform r.Secs r.Nanos))
        values = some (Except.ok (ts', vs'))) :
    numericStage qm fromT toT pvdata =
      some { Frames := [{ Name := qm.QueryText, RefID := qm.RefId,
                          Fields := [{ name := "Value", fdata := FieldData.floats vs' },
                                     { name := "Time", fdata := FieldData.times ts' }] }],
             Error := none } := by
  simp only [numericStage, hc, ha]

theorem numericStage_transErr (qm : queryModel) (fromT toT : ℚ) (pvdata : List PVDataset)
    (values : List ℝ) (e : String)
    (hc : convertSamples qm.UnitConversion ((pvdata.map PVDataset.data).flatten) = some values)
    (ha : applyTransform qm.Transform
        ((pvdata.map PVDataset.data).flatten.map (fun r => sampleTime qm.Transform r.Secs r.Nanos))
        values = some (Except.error e)) :
    numericStage qm fromT toT pvdata =
      some { Frames := [emptyFrame fromT toT], Error := some e } := by
  simp only [numericStage, hc, ha]

theorem numericStage_panic (qm : queryModel) (fromT toT : ℚ) (pvdata : List PVDataset)
    (values : List ℝ)
    (hc : convertSamples qm.UnitConversion ((pvdata.map PVDataset.data).flatten) = some values)
    (ha : applyTransform qm.Transform
        ((pvdata.map PVDataset.data).flatten.map (fun r => sampleTime qm.Transform r.Secs r.Nanos))
        values = none) :
    numericStage qm fromT toT pvdata = none := by
  simp only [numericStage, hc, ha]

deriving instance DecidableEq for Except

/-- `math.Round` returns the (a) nearest integer. -/
theorem goRound_nearest (x : ℝ) : ∃ k : ℤ, goRound x = (k : ℝ) ∧ |x - (k : ℝ)| ≤ 1 / 2 := by
  unfold goRound
  split_ifs with hx
  · refine ⟨-⌊-x + 1 / 2⌋, by push_cast; ring, ?_⟩
    have h1 : ((⌊-x + 1 / 2⌋ : ℤ) : ℝ) ≤ -x + 1 / 2 := Int.floor_le _
    have h2 : -x + 1 / 2 < (⌊-x + 1 / 2⌋ : ℤ) + 1 := Int.lt_floor_add_one _
    rw [abs_le]
    constructor <;> push_cast <;> push_cast at h1 h2 <;> linarith
  · refine ⟨⌊x + 1 / 2⌋, rfl, ?_⟩
    have h1 : ((⌊x + 1 / 2⌋ : ℤ) : ℝ) ≤ x + 1 / 2 := Int.floor_le _
    have h2 : x + 1 / 2 < (⌊x + 1 / 2⌋ : ℤ) + 1 := Int.lt_floor_add_one _
    rw [abs_le]
    constructor <;> linarith

/-! ### Claim theorems -/

theorem pvSpec_formula (qm : queryModel) (fromT toT : ℚ) (mdp : Int) :
    pvSpec qm fromT toT mdp =
      (if qm.DisableBinning = true ∨ ⌊(toT - fromT) / (mdp : ℚ)⌋ < 1 then qm.QueryText
       else "lastSample_" ++ toString ⌊(toT - fromT) / (mdp : ℚ)⌋ ++ "(" ++ qm.QueryText ++ ")") := by
  unfold pvSpec sampleRateOf
  by_cases hd : qm.DisableBinning
  · simp [hd]
  · by_cases hb : ⌊(toT - fromT) / (mdp : ℚ)⌋ < 1
    · simp [hd, hb]
    · have hpos : 0 < ⌊(toT - fromT) / (mdp : ℚ)⌋ := by omega
      simp [hd, hb, hpos]

theorem applyTransform_valid_no_error (transform : Int) (ts : List ℚ) (vs : List ℝ)
    (h : 0 ≤ transform ∧ transform ≤ 6) (e : String) :
    applyTransform transform ts vs ≠ some (Except.error e) := by
  unfold applyTransform
  split_ifs with h1 h2 h3 h4 h5 h6
  · simp
  · simp
  · simp
  · simp
  · simp
  · simp
  · exfalso
    simp at h1 h2 h4 h6
    omega

theorem length_comp_map {α β γ : Type _} (d : α → List β) (f : β → γ) :
    (List.length ∘ List.map f ∘ d) = fun x => (d x).length := by
  funext x
  simp

/-- Master invariant: every frame of every normally-returned response has
equal-length columns, and whenever an error is attached the frames are
exactly the two-boundary placeholder. -/
theorem query_resp_invariant (qm : queryModel) (fromT toT : ℚ) (mdp : Int)
    (fetch : Except String String) (resp : DataResponse)
    (h : query qm fromT toT mdp fetch = some resp) :
    (∀ fr ∈ resp.Frames, frameWF fr) ∧
    (resp.Error ≠ none → resp.Frames = [emptyFrame fromT toT]) := by
  by_cases h1 : qm.Hide
  · rw [query_hide_eq qm fromT toT mdp fetch h1] at h
    have hr := Option.some.inj h
    subst hr
    exact ⟨by intro fr hfr; simp at hfr, by intro he; simp at he⟩
  · have h1' : qm.Hide = false := by simpa using h1
    by_cases h2 : qm.QueryText = ""
    · rw [query_emptyText_eq qm fromT toT mdp fetch h1' h2] at h
      have hr := Option.some.inj h
      subst hr
      refine ⟨?_, by intro he; simp at he⟩
      intro fr hfr
      simp at hfr
      subst hfr
      exact emptyFrame_wf fromT toT
    · cases fetch with
      | error e =>
        rw [query_fetchErr_eq qm fromT toT mdp e h1' h2] at h
        have hr := Option.some.inj h
        subst hr
        refine ⟨?_, by intro _; rfl⟩
        intro fr hfr
        simp at hfr
        subst hfr
        exact emptyFrame_wf fromT toT
      | ok raw =>
        rw [query_ok_eq qm fromT toT mdp raw h1' h2] at h
        cases hd : decodeNumericBody (sanitize raw) with
        | error de =>
          cases de with
          | typeMismatch m =>
            cases hs : decodeStringBody (sanitize raw) with
            | ok pvs =>
              rw [queryAfterDecode_fallback_ok qm fromT toT (sanitize raw) m pvs hd hs] at h
              have hr := Option.some.inj h
              subst hr
              refine ⟨?_, by intro he; simp [stringStage] at he⟩
              intro fr hfr
              simp [stringStage] at hfr
              subst hfr
              intro f1 hf1 f2 hf2
              simp at hf1 hf2
              rcases hf1 with hf1 | hf1 <;> rcases hf2 with hf2 | hf2 <;>
                subst hf1 <;> subst hf2 <;>
                  simp [FieldData.len, length_comp_map, Function.comp_assoc]
            | error e2 =>
              rw [queryAfterDecode_fallback_err qm fromT toT (sanitize raw) m e2 hd hs] at h
              have hr := Option.some.inj h
              subst hr
              refine ⟨?_, by intro _; rfl⟩
              intro fr hfr
              simp at hfr
              subst hfr
              exact emptyFrame_wf fromT toT
          | otherErr m =>
            rw [queryAfterDecode_otherErr qm fromT toT (sanitize raw) m hd] at h
            have hr := Option.some.inj h
            subst hr
            refine ⟨?_, by intro _; rfl⟩
            intro fr hfr
            simp at hfr
            subst hfr
            exact emptyFrame_wf fromT toT
        | ok pvdata =>
          rw [queryAfterDecode_numOk qm fromT toT (sanitize raw) pvdata hd] at h
          cases hc : convertSamples qm.UnitConversion ((pvdata.map PVDataset.data).flatten) with
          | none =>
            rw [numericStage_convNone qm fromT toT pvdata hc] at h
            have hr := Option.some.inj h
            subst hr
            refine ⟨?_, by intro _; rfl⟩
            intro fr hfr
            simp at hfr
            subst hfr
            exact emptyFrame_wf fromT toT
          | some values =>
            have hlenv := convertSamples_length qm.UnitConversion _ values hc
            cases ha : applyTransform qm.Transform
                (((pvdata.map PVDataset.data).flatten).map
                  (fun r => sampleTime qm.Transform r.Secs r.Nanos)) values with
            | none =>
              rw [numericStage_panic qm fromT toT pvdata values hc ha] at h
              simp at h
            | some res =>
              cases res with
              | error e =>
                rw [numericStage_transErr qm fromT toT pvdata values e hc ha] at h
                have hr := Option.some.inj h
                subst hr
                refine ⟨?_, by intro _; rfl⟩
                intro fr hfr
                simp at hfr
                subst hfr
                exact emptyFrame_wf fromT toT
              | ok pair =>
                obtain ⟨ts', vs'⟩ := pair
                rw [numericStage_ok_frame qm fromT toT pvdata values ts' vs' hc ha] at h
                have hr := Option.some.inj h
                subst hr
                have hlen := (applyTransform_ok_len qm.Transform _ ts' values vs'
                  (by simp only [List.length_map, hlenv]) ha).1
                refine ⟨?_, by intro he; simp at he⟩
                intro fr hfr
                simp at hfr
                subst hfr
                intro f1 hf1 f2 hf2
                simp at hf1 hf2
                rcases hf1 with hf1 | hf1 <;> rcases hf2 with hf2 | hf2 <;>
                  subst hf1 <;> subst hf2 <;> simp [FieldData.len, hlen]

def qmC2 : queryModel :=
  { Format := "time_series", QueryText := "ch", UnitConversion := 0, Transform := 0,
    DisableBinning := false, IntervalMs := 0, MaxDataPoints := 100, OrgId := 1,
    RefId := "A", Hide := false }

def qmC2dis : queryModel := { qmC2 with DisableBinning := true }

/-- C2: for every query with binning enabled the bin size is
`floor(rangeDurationSeconds / maxDataPoints)`; when it is at least 1 the
`pv` parameter is `lastSample_<binSize>(<channel>)`, and when it is below 1
— or whenever the disable-binning flag is set, regardless of duration and
maxDataPoints — the `pv` parameter is the bare channel name.  In
particular duration 600 s with maxPoints 100 and disable false yields
`lastSample_6(ch)`, and duration 50 s with maxPoints 100 yields the raw
channel. -/
theorem C2_bin_size_selection :
    (∀ (qm : queryModel) (fromT toT : ℚ) (mdp : Int),
      pvSpec qm fromT toT mdp =
        (if qm.DisableBinning = true ∨ ⌊(toT - fromT) / (mdp : ℚ)⌋ < 1 then qm.QueryText
         else "lastSample_" ++ toString ⌊(toT - fromT) / (mdp : ℚ)⌋ ++ "(" ++ qm.QueryText ++ ")")) ∧
    pvSpec qmC2 0 600 100 = "lastSample_6(ch)" ∧
    pvSpec qmC2 0 50 100 = "ch" ∧
    (∀ (fromT toT : ℚ) (mdp : Int), pvSpec qmC2dis fromT toT mdp = "ch") := by
  refine ⟨pvSpec_formula, ?_, ?_, ?_⟩
  · have h6 : ⌊((600 : ℚ) - 0) / ((100 : Int) : ℚ)⌋ = 6 := by norm_num
    rw [pvSpec_formula, h6]
    norm_num [qmC2]
    decide
  · have h0 : ⌊((50 : ℚ) - 0) / ((100 : Int) : ℚ)⌋ = 0 := by norm_num
    rw [pvSpec_formula, h0]
    norm_num [qmC2]
  · intro f t mdp
    rw [pvSpec_formula]
    norm_num [qmC2dis, qmC2]

/-- C3: the unit converter computes exactly `v` for code 0, `v*π/180` for
code 1, `v*180/π` for code 2, `v*3600*180/π` for code 3, `v+273.15` for
code 4 (the label says Kelvin→Celsius but the arithmetic adds 273.15,
preserved as written), `v-273.15` for code 5, `(v-32)*5/9` for code 6 and
`v*9/5+32` for code 7; in particular code 1 on 180 yields π, code 6 on 32
yields 0, and code 7 on 0 yields 32. -/
theorem C3_unit_conversion_formulas :
    (∀ v : ℝ, unitConvert 0 v = some v) ∧
    (∀ v : ℝ, unitConvert 1 v = some (v * Real.pi / 180)) ∧
    (∀ v : ℝ, unitConvert 2 v = some (v * 180 / Real.pi)) ∧
    (∀ v : ℝ, unitConvert 3 v = some (v * 3600 * 180 / Real.pi)) ∧
    (∀ v : ℝ, unitConvert 4 v = some (v + 273.15)) ∧
    (∀ v : ℝ, unitConvert 5 v = some (v - 273.15)) ∧
    (∀ v : ℝ, unitConvert 6 v = some ((v - 32) * 5 / 9)) ∧
    (∀ v : ℝ, unitConvert 7 v = some (v * 9 / 5 + 32)) ∧
    unitConvert 1 180 = some Real.pi ∧
    unitConvert 6 32 = some 0 ∧
    unitConvert 7 0 = some 32 := by
  have hpi : (180 : ℝ) * (Real.pi / 180) = Real.pi := by
    field_simp
  refine ⟨fun v => by simp [unitConvert],
          fun v => by simp [unitConvert]; try ring
          ,fun v => by simp [unitConvert]; try ring
          ,fun v => by simp [unitConvert]; try ring,
          fun v => by simp [unitConvert],
          fun v => by simp [unitConvert],
          fun v => by simp [unitConvert],
          fun v => by simp [unitConvert],
          by simp [unitConvert, hpi],
          by simp [unitConvert]; try norm_num
          ,by simp [unitConvert]; try norm_num⟩

/-- C9: when the query's hide flag is set, the response contains no frames
and no error — the query is answered before the empty-channel check, any
network call (the theorem holds for a failing fetch as well), or any
placeholder construction. -/
theorem C9_hide_short_circuits :
    ∀ (qm : queryModel) (fromT toT : ℚ) (mdp : Int) (fetch : Except String String),
      qm.Hide = true →
      query qm fromT toT mdp fetch = some { Frames := [], Error := none } :=
  fun qm f t mdp fetch h => query_hide_eq qm f t mdp fetch h

def qmC9w : queryModel :=
  { Format := "", QueryText := "", UnitConversion := 99, Transform := 99,
    DisableBinning := false, IntervalMs := 0, MaxDataPoints := 0, OrgId := 0,
    RefId := "R", Hide := true }

theorem C9_hide_witness :
    qmC9w.Hide = true ∧
    query qmC9w 0 600 100 (Except.error ("network down")) =
      some { Frames := [], Error := none } :=
  ⟨rfl, C9_hide_short_circuits qmC9w 0 600 100 (Except.error ("network down")) rfl⟩

/-- C10: a successfully decoded numeric series with zero samples combined
with any derivative or delta transform code (1 through 5) makes the
transform stage allocate output arrays of length `count - 1 = -1`; the
operation is not total and aborts at run time (modelled by `query`
returning `none` instead of any response). -/
theorem C10_zero_sample_derivative_panics :
    ∀ (qm : queryModel) (fromT toT : ℚ) (mdp : Int) (body : String) (pvdata : List PVDataset),
      qm.Hide = false → ¬ qm.QueryText = "" →
      decodeNumericBody (sanitize body) = Except.ok pvdata →
      (pvdata.map PVDataset.data).flatten = [] →
      1 ≤ qm.Transform → qm.Transform ≤ 5 →
      query qm fromT toT mdp (Except.ok body) = none := by
  intro qm f t mdp body pvdata h1 h2 hdec hrows hlo hhi
  rw [query_ok_eq qm f t mdp body h1 h2,
      queryAfterDecode_numOk qm f t (sanitize body) pvdata hdec]
  have hc : convertSamples qm.UnitConversion ((pvdata.map PVDataset.data).flatten) = some [] := by
    rw [hrows]
    simp [convertSamples]
  have ha : applyTransform qm.Transform
      (((pvdata.map PVDataset.data).flatten).map (fun r => sampleTime qm.Transform r.Secs r.Nanos))
      [] = none := by
    apply applyTransform_panic qm.Transform _ _ ⟨hlo, hhi⟩
    rw [hrows]
    rfl
  exact numericStage_panic qm f t pvdata [] hc ha

def qmC10w : queryModel :=
  { Format := "", QueryText := "k0:met:val", UnitConversion := 0, Transform := 1,
    DisableBinning := false, IntervalMs := 0, MaxDataPoints := 0, OrgId := 0,
    RefId := "D", Hide := false }

theorem C10_witness :
    decodeNumericBody (sanitize ("null")) = Except.ok [] ∧
    query qmC10w 0 600 100 (Except.ok ("null")) = none :=
  ⟨by decide,
   C10_zero_sample_derivative_panics qmC10w 0 600 100 ("null") [] rfl (by decide) (by decide)
     rfl (by decide) (by decide)⟩

/-- C4: for every numeric series of N ≥ 2 samples with transform code 1
(plain first derivative) or the rounding variants 2/3/4, the output has
length N-1, output value at index i-1 is `(value[i]-value[i-1])` divided by
the elapsed seconds `(time[i]-time[i-1])`, the output timestamp at index
i-1 is `time[i]` (right-edge alignment), and the 1Hz/10Hz/100Hz variants
round the quotient to the nearest integer, nearest 0.1 and nearest 0.01
respectively (`goRound` is `math.Round`, proved to return a nearest
integer / tenth / hundredth). -/
theorem C4_first_derivative :
    (∀ (transform : Int), transform = 1 ∨ transform = 2 ∨ transform = 3 ∨ transform = 4 →
      ∀ (times : List ℚ) (values : List ℝ), times.length = values.length → 2 ≤ times.length →
      ∃ ts vs, applyTransform transform times values = some (Except.ok (ts, vs)) ∧
        ts.length = times.length - 1 ∧ vs.length = times.length - 1 ∧
        ts = times.tail ∧
        (∀ i, i + 1 < times.length →
          vs.getD i 0 =
            derivRound transform
              ((values.getD (i + 1) 0 - values.getD i 0) /
                ((times.getD (i + 1) 0 - times.getD i 0 : ℚ) : ℝ)))) ∧
    (∀ d : ℝ, derivRound 1 d = d) ∧
    (∀ d : ℝ, derivRound 2 d = goRound d) ∧
    (∀ d : ℝ, derivRound 3 d = goRound (d * 10) / 10) ∧
    (∀ d : ℝ, derivRound 4 d = goRound (d * 100) / 100) ∧
    (∀ x : ℝ, ∃ k : ℤ, goRound x = (k : ℝ) ∧ |x - (k : ℝ)| ≤ 1 / 2) ∧
    (∀ x : ℝ, ∃ k : ℤ, goRound (x * 10) / 10 = (k : ℝ) / 10 ∧ |x - (k : ℝ) / 10| ≤ 1 / 20) ∧
    (∀ x : ℝ, ∃ k : ℤ, goRound (x * 100) / 100 = (k : ℝ) / 100 ∧ |x - (k : ℝ) / 100| ≤ 1 / 200) := by
  refine ⟨?_, fun d => by simp [derivRound], fun d => by simp [derivRound],
          fun d => by simp [derivRound], fun d => by simp [derivRound],
          goRound_nearest, ?_, ?_⟩
  · intro transform htr ts vs hlen h2
    refine ⟨(derivList transform ts vs).map Prod.fst, (derivList transform ts vs).map Prod.snd,
            applyTransform_deriv transform ts vs htr (by omega), ?_, ?_,
            derivList_map_fst transform ts vs hlen,
            fun i hi => derivList_snd_getD transform ts vs hlen i hi⟩
    · have hfst := derivList_map_fst transform ts vs hlen
      simpa using congrArg List.length hfst
    · have hfst := derivList_map_fst transform ts vs hlen
      have hl : (derivList transform ts vs).length = ts.length - 1 := by
        simpa using congrArg List.length hfst
      simp [hl]
  · intro x
    obtain ⟨k, hk, hd⟩ := goRound_nearest (x * 10)
    refine ⟨k, by rw [hk], ?_⟩
    have hx : x - (k : ℝ) / 10 = (x * 10 - (k : ℝ)) / 10 := by ring
    rw [hx, abs_div, abs_of_pos (by norm_num : (0 : ℝ) < 10)]
    linarith
  · intro x
    obtain ⟨k, hk, hd⟩ := goRound_nearest (x * 100)
    refine ⟨k, by rw [hk], ?_⟩
    have hx : x - (k : ℝ) / 100 = (x * 100 - (k : ℝ)) / 100 := by ring
    rw [hx, abs_div, abs_of_pos (by norm_num : (0 : ℝ) < 100)]
    linarith

theorem C4_witness :
    ([(0 : ℚ), 10].length = [(0 : ℝ), 10].length ∧ 2 ≤ [(0 : ℚ), 10].length) ∧
    (∃ ts vs, applyTransform 1 [(0 : ℚ), 10] [(0 : ℝ), 10] = some (Except.ok (ts, vs)) ∧
      ts.length = [(0 : ℚ), 10].length - 1 ∧ vs.length = [(0 : ℚ), 10].length - 1 ∧
      ts = [(0 : ℚ), 10].tail ∧
      (∀ i, i + 1 < [(0 : ℚ), 10].length →
        vs.getD i 0 =
          derivRound 1
            (([(0 : ℝ), 10].getD (i + 1) 0 - [(0 : ℝ), 10].getD i 0) /
              (([(0 : ℚ), 10].getD (i + 1) 0 - [(0 : ℚ), 10].getD i 0 : ℚ) : ℝ)))) ∧
    applyTransform 1 [(0 : ℚ), 10] [(0 : ℝ), 10] = some (Except.ok ([10], [1])) := by
  refine ⟨⟨by simp, by simp⟩,
          C4_first_derivative.1 1 (Or.inl rfl) [(0 : ℚ), 10] [(0 : ℝ), 10] (by simp) (by simp),
          ?_⟩
  rw [applyTransform_deriv 1 [(0 : ℚ), 10] [(0 : ℝ), 10] (Or.inl rfl) (by simp)]
  norm_num [derivList, derivRound]

/-- C5: for every numeric series of N ≥ 2 samples with the delta transform
(code 5), the output has length N-1, output value at index i-1 equals
`value[i] - value[i-1]` with elapsed time ignored entirely, and the output
timestamp at index i-1 is `time[i]`. -/
theorem C5_delta_transform :
    ∀ (times : List ℚ) (values : List ℝ), times.length = values.length → 2 ≤ times.length →
    ∃ ts vs, applyTransform TRANSFORM_DELTA times values = some (Except.ok (ts, vs)) ∧
      ts.length = times.length - 1 ∧ vs.length = times.length - 1 ∧
      ts = times.tail ∧
      (∀ i, i + 1 < times.length →
        vs.getD i 0 = values.getD (i + 1) 0 - values.getD i 0) := by
  intro ts vs hlen h2
  refine ⟨(deltaList ts vs).map Prod.fst, (deltaList ts vs).map Prod.snd,
          applyTransform_delta ts vs (by omega), ?_, ?_,
          deltaList_map_fst ts vs hlen,
          fun i hi => deltaList_snd_getD ts vs hlen i hi⟩
  · have hfst := deltaList_map_fst ts vs hlen
    simpa using congrArg List.length hfst
  · have hfst := deltaList_map_fst ts vs hlen
    have hl : (deltaList ts vs).length = ts.length - 1 := by
      simpa using congrArg List.length hfst
    simp [hl]

theorem C5_witness :
    ([(0 : ℚ), 1, 2, 3].length = [(1 : ℝ), 2, 4, 7].length ∧ 2 ≤ [(0 : ℚ), 1, 2, 3].length) ∧
    (∃ ts vs, applyTransform TRANSFORM_DELTA [(0 : ℚ), 1, 2, 3] [(1 : ℝ), 2, 4, 7] =
        some (Except.ok (ts, vs)) ∧
      ts.length = [(0 : ℚ), 1, 2, 3].length - 1 ∧ vs.length = [(0 : ℚ), 1, 2, 3].length - 1 ∧
      ts = [(0 : ℚ), 1, 2, 3].tail ∧
      (∀ i, i + 1 < [(0 : ℚ), 1, 2, 3].length →
        vs.getD i 0 = [(1 : ℝ), 2, 4, 7].getD (i + 1) 0 - [(1 : ℝ), 2, 4, 7].getD i 0)) ∧
    applyTransform TRANSFORM_DELTA [(0 : ℚ), 1, 2, 3] [(1 : ℝ), 2, 4, 7] =
      some (Except.ok ([1, 2, 3], [1, 2, 3])) := by
  refine ⟨⟨by simp, by simp⟩,
          C5_delta_transform [(0 : ℚ), 1, 2, 3] [(1 : ℝ), 2, 4, 7] (by simp) (by simp), ?_⟩
  rw [applyTransform_delta [(0 : ℚ), 1, 2, 3] [(1 : ℝ), 2, 4, 7] (by simp)]
  norm_num [deltaList]

/-- A reply body in which the archiver emitted the literal token `NaN` as a
sample value (invalid JSON). -/
def bodyNaN : String :=
  "[\x7b\"data\": [\x7b\"secs\": 5, \"nanos\": 0, \"severity\": 0, \"status\": 0, \"val\": NaN\x7d], \"meta\": \x7b\"name\": \"ch\", \"PREC\": \"0\"\x7d\x7d]"

/-- `bodyNaN` after the `": NaN"` → `": null"` rewrite. -/
def bodyNull : String :=
  "[\x7b\"data\": [\x7b\"secs\": 5, \"nanos\": 0, \"severity\": 0, \"status\": 0, \"val\": null\x7d], \"meta\": \x7b\"name\": \"ch\", \"PREC\": \"0\"\x7d\x7d]"

/-- C6: decoding first replaces every literal `": NaN"` with `": null"` and
only then parses — the pipeline hands `sanitize raw` (never `raw`) to the
decoder — so a payload carrying the literal token `NaN` as a value, which
fails a direct JSON parse, decodes without error (the null value is a
decode no-op, leaving the zero value 0). -/
theorem C6_nan_sanitization :
    (∀ (qm : queryModel) (fromT toT : ℚ) (mdp : Int) (raw : String),
      query qm fromT toT mdp (Except.ok raw) =
        (if qm.Hide = true then some { Frames := [], Error := none }
         else if qm.QueryText = "" then some { Frames := [emptyFrame fromT toT], Error := none }
         else queryAfterDecode qm fromT toT (sanitize raw))) ∧
    sanitize bodyNaN = bodyNull ∧
    (jparse bodyNaN).isNone = true ∧
    decodeNumericBody (sanitize bodyNaN) =
      Except.ok [PVDataset.mk [PVSample.mk 0 5 0 0 0] (PVMeta.mk 0 ("ch"))] := by
  refine ⟨?_, by decide, by decide, by decide⟩
  intro qm f t mdp raw
  by_cases h1 : qm.Hide
  · simp [query, h1]
  · by_cases h2 : qm.QueryText = ""
    · simp [query, h1, h2]
    · simp [query, h1, h2]

/-- C7: when (and only when) the numeric-schema decode of the sanitized
body fails with a type mismatch, the same body is retried against the
string-valued schema.  On success the decoded string series is surfaced
as-is: raw string values, no unit conversion, no transform-engine stage —
the timestamps are exactly the decode-stage reconstruction, which zeroes
the fractional seconds iff the truncate transform (code 6) is selected
(§4.3-style truncation at decode).  A string-schema failure, or any
non-type-mismatch numeric decode failure, is fatal and yields the
boundary placeholder with the error. -/
theorem C7_string_fallback :
    ∀ (qm : queryModel) (fromT toT : ℚ) (mdp : Int) (body : String),
      qm.Hide = false → ¬ qm.QueryText = "" →
      (∀ m, decodeNumericBody (sanitize body) = Except.error (DecErr.typeMismatch m) →
        (∀ pvsdata, decodeStringBody (sanitize body) = Except.ok pvsdata →
          query qm fromT toT mdp (Except.ok body) =
            some (DataResponse.mk
              [Frame.mk qm.QueryText qm.RefId
                [FrameField.mk ("time")
                  (FieldData.times (((pvsdata.map PVStringDataset.data).flatten).map
                    (fun r => sampleTime qm.Transform r.Secs r.Nanos))),
                 FrameField.mk ("values")
                  (FieldData.strs (((pvsdata.map PVStringDataset.data).flatten).map
                    PVStringSample.Val))]]
              none)) ∧
        (∀ e, decodeStringBody (sanitize body) = Except.error e →
          query qm fromT toT mdp (Except.ok body) =
            some { Frames := [emptyFrame fromT toT], Error := some (decErrMsg e) })) ∧
      (∀ m, decodeNumericBody (sanitize body) = Except.error (DecErr.otherErr m) →
        query qm fromT toT mdp (Except.ok body) =
          some { Frames := [emptyFrame fromT toT], Error := some m }) := by
  intro qm f t mdp body h1 h2
  refine ⟨fun m hm => ⟨fun pvs hs => ?_, fun e he => ?_⟩, fun m hm => ?_⟩
  · rw [query_ok_eq qm f t mdp body h1 h2,
        queryAfterDecode_fallback_ok qm f t (sanitize body) m pvs hm hs]
    rfl
  · rw [query_ok_eq qm f t mdp body h1 h2,
        queryAfterDecode_fallback_err qm f t (sanitize body) m e hm he]
  · rw [query_ok_eq qm f t mdp body h1 h2,
        queryAfterDecode_otherErr qm f t (sanitize body) m hm]

/-- A string-valued archiver reply (`val` is `"OPEN"`). -/
def bodyOPEN : String :=
  "[\x7b\"data\": [\x7b\"secs\": 7, \"nanos\": 500000000, \"severity\": 0, \"status\": 0, \"val\": \"OPEN\"\x7d], \"meta\": \x7b\"name\": \"ch\", \"PREC\": \"0\"\x7d\x7d]"

def qmC7w : queryModel :=
  { Format := "", QueryText := "k0:dm:po", UnitConversion := 0, Transform := 0,
    DisableBinning := false, IntervalMs := 0, MaxDataPoints := 0, OrgId := 0,
    RefId := "S", Hide := false }

def pvsOPEN : List PVStringDataset :=
  [{ data := [{ Nanos := 500000000, Secs := 7, Severity := 0, Status := 0, Val := "OPEN" }],
     meta := { PREC := 0, name := "ch" } }]

set_option maxRecDepth 8000 in
theorem C7_witness :
    qmC7w.Hide = false ∧
    decodeNumericBody (sanitize bodyOPEN) =
      Except.error (DecErr.typeMismatch
        ("json: cannot unmarshal value into Go value of type float64")) ∧
    decodeStringBody (sanitize bodyOPEN) = Except.ok pvsOPEN ∧
    query qmC7w 0 600 100 (Except.ok bodyOPEN) =
      some (DataResponse.mk
        [Frame.mk ("k0:dm:po") ("S")
          [FrameField.mk ("time") (FieldData.times [sampleTime 0 7 500000000]),
           FrameField.mk ("values") (FieldData.strs ["OPEN"])]]
        none) ∧
    sampleTime 0 7 500000000 = 15 / 2 :=
  ⟨rfl, by decide, by decide,
   ((C7_string_fallback qmC7w 0 600 100 bodyOPEN rfl (by decide)).1
       ("json: cannot unmarshal value into Go value of type float64") (by decide)).1
     pvsOPEN (by decide),
   by norm_num [sampleTime]⟩

def qmC8x : queryModel :=
  { Format := "", QueryText := "k0:ao:enc", UnitConversion := 1000, Transform := 0,
    DisableBinning := false, IntervalMs := 0, MaxDataPoints := 0, OrgId := 0,
    RefId := "B", Hide := false }

/-- A decodable reply whose (single) dataset holds zero samples. -/
def bodyC8x : String := "[\x7b\"data\": [], \"meta\": \x7b\"name\": \"m\", \"PREC\": \"1\"\x7d\x7d]"

/-- C8 counterexample: a query whose unit-conversion code (1000) is outside
0..7, whose fetched body decodes to zero samples, returns a normal
(non-placeholder) frame with empty Value/Time columns and NO error — the
conversion switch sits inside the per-sample loop, so with no samples the
unknown code is never examined and the claimed fail-fast placeholder-plus-
error response does not happen. -/
theorem C8_counterexample :
    ¬ (0 ≤ qmC8x.UnitConversion ∧ qmC8x.UnitConversion ≤ 7) ∧
    query qmC8x 0 600 100 (Except.ok bodyC8x) =
      some (DataResponse.mk
        [Frame.mk ("k0:ao:enc") ("B")
          [FrameField.mk ("Value") (FieldData.floats []),
           FrameField.mk ("Time") (FieldData.times [])]]
        none) ∧
    Frame.mk ("k0:ao:enc") ("B")
        [FrameField.mk ("Value") (FieldData.floats []),
         FrameField.mk ("Time") (FieldData.times [])] ≠ emptyFrame 0 600 := by
  have hdec : decodeNumericBody (sanitize bodyC8x) =
      Except.ok [PVDataset.mk [] (PVMeta.mk 1 ("m"))] := by decide
  refine ⟨by decide, ?_, ?_⟩
  · rw [query_ok_eq qmC8x 0 600 100 bodyC8x rfl (by decide),
        queryAfterDecode_numOk qmC8x 0 600 (sanitize bodyC8x) _ hdec]
    have hc : convertSamples qmC8x.UnitConversion
        (([PVDataset.mk [] (PVMeta.mk 1 ("m"))].map PVDataset.data).flatten) = some [] := by
      simp [convertSamples]
    have ha : applyTransform qmC8x.Transform
        ((([PVDataset.mk [] (PVMeta.mk 1 ("m"))].map PVDataset.data).flatten).map
          (fun r => sampleTime qmC8x.Transform r.Secs r.Nanos)) [] =
        some (Except.ok ([], [])) :=
      applyTransform_passthrough qmC8x.Transform _ _ (Or.inl rfl)
    rw [numericStage_ok_frame qmC8x 0 600 _ [] [] [] hc ha]
    rfl
  · intro hcontra
    simp [emptyFrame] at hcontra

/-- C8 (amended): on the numeric path — query not hidden, channel
non-empty, fetch delivered a body that decodes under the numeric schema —
an out-of-range unit-conversion code fails fast with the boundary
placeholder plus the `Unknown unit conversion` error provided at least one
sample was decoded (with zero samples the conversion loop never runs and a
normal empty frame is returned, see the counterexample), and an
out-of-range transform code (with a recognized conversion code) always
fails fast with the placeholder plus the `Unknown transform` error, with
no partial value array ever returned.  The string fallback path ignores
both codes. -/
theorem C8_unknown_codes :
    ∀ (qm : queryModel) (fromT toT : ℚ) (mdp : Int) (body : String) (pvdata : List PVDataset),
      qm.Hide = false → ¬ qm.QueryText = "" →
      decodeNumericBody (sanitize body) = Except.ok pvdata →
      (¬ (0 ≤ qm.UnitConversion ∧ qm.UnitConversion ≤ 7) →
        (pvdata.map PVDataset.data).flatten ≠ [] →
        query qm fromT toT mdp (Except.ok body) =
          some { Frames := [emptyFrame fromT toT],
                 Error := some ("Unknown unit conversion: " ++ toString qm.UnitConversion) }) ∧
      ((0 ≤ qm.UnitConversion ∧ qm.UnitConversion ≤ 7) →
        ¬ (0 ≤ qm.Transform ∧ qm.Transform ≤ 6) →
        query qm fromT toT mdp (Except.ok body) =
          some { Frames := [emptyFrame fromT toT],
                 Error := some ("Unknown transform: " ++ toString qm.Transform) }) := by
  intro qm f t mdp body pvdata h1 h2 hdec
  constructor
  · intro huc hrows
    rw [query_ok_eq qm f t mdp body h1 h2,
        queryAfterDecode_numOk qm f t (sanitize body) pvdata hdec]
    have hc : convertSamples qm.UnitConversion ((pvdata.map PVDataset.data).flatten) = none := by
      cases hr : (pvdata.map PVDataset.data).flatten with
      | nil => exact absurd hr hrows
      | cons r rs => exact convertSamples_invalid qm.UnitConversion huc r rs
    exact numericStage_convNone qm f t pvdata hc
  · intro huc htr
    rw [query_ok_eq qm f t mdp body h1 h2,
        queryAfterDecode_numOk qm f t (sanitize body) pvdata hdec]
    obtain ⟨values, hvs, hlenv⟩ :=
      convertSamples_valid qm.UnitConversion huc ((pvdata.map PVDataset.data).flatten)
    exact numericStage_transErr qm f t pvdata values _ hvs
      (applyTransform_invalid qm.Transform _ values htr)

def qmC8w : queryModel :=
  { Format := "", QueryText := "k0:met:prs", UnitConversion := 99, Transform := 0,
    DisableBinning := false, IntervalMs := 0, MaxDataPoints := 0, OrgId := 0,
    RefId := "E", Hide := false }

def bodyC8w : String :=
  "[\x7b\"data\": [\x7b\"secs\": 3, \"nanos\": 0, \"severity\": 0, \"status\": 0, \"val\": 2\x7d], \"meta\": \x7b\"name\": \"x\", \"PREC\": \"0\"\x7d\x7d]"

def pvC8w : List PVDataset := [PVDataset.mk [PVSample.mk 0 3 0 0 2] (PVMeta.mk 0 ("x"))]

theorem C8_witness :
    decodeNumericBody (sanitize bodyC8w) = Except.ok pvC8w ∧
    ¬ (0 ≤ qmC8w.UnitConversion ∧ qmC8w.UnitConversion ≤ 7) ∧
    (pvC8w.map PVDataset.data).flatten ≠ [] ∧
    query qmC8w 0 600 100 (Except.ok bodyC8w) =
      some { Frames := [emptyFrame 0 600], Error := some ("Unknown unit conversion: 99") } :=
  ⟨by decide, by decide, by decide,
   (C8_unknown_codes qmC8w 0 600 100 bodyC8w pvC8w rfl (by decide) (by decide)).1
     (by decide) (by decide)⟩

/-- C1: every returned response is well-formed — all columns of every
returned frame have equal length (equal to the decoded sample count for
pass-through/conversion/truncation and the string path, one less for
derivative/delta), and on every fatal condition — empty channel name,
transport failure, fatal decode failure, or any reported error (which is
how unrecognized enum codes surface) — the response instead holds exactly
the two-boundary placeholder frame, which has a single `time` field with
the two requested-range timestamps and no value field; a series with
mismatched time/value lengths is never returned. -/
theorem C1_response_wellformed :
    ∀ (qm : queryModel) (fromT toT : ℚ) (mdp : Int) (fetch : Except String String)
      (resp : DataResponse),
      query qm fromT toT mdp fetch = some resp →
      (∀ fr ∈ resp.Frames, frameWF fr) ∧
      (resp.Error ≠ none → resp.Frames = [emptyFrame fromT toT]) ∧
      (qm.Hide = false → qm.QueryText = "" →
        resp = { Frames := [emptyFrame fromT toT], Error := none }) ∧
      (∀ e, qm.Hide = false → ¬ qm.QueryText = "" → fetch = Except.error e →
        resp = { Frames := [emptyFrame fromT toT], Error := some e }) ∧
      (∀ body m, qm.Hide = false → ¬ qm.QueryText = "" → fetch = Except.ok body →
        decodeNumericBody (sanitize body) = Except.error (DecErr.otherErr m) →
        resp = { Frames := [emptyFrame fromT toT], Error := some m }) ∧
      (∀ body m e, qm.Hide = false → ¬ qm.QueryText = "" → fetch = Except.ok body →
        decodeNumericBody (sanitize body) = Except.error (DecErr.typeMismatch m) →
        decodeStringBody (sanitize body) = Except.error e →
        resp = { Frames := [emptyFrame fromT toT], Error := some (decErrMsg e) }) ∧
      (∀ body pvdata, qm.Hide = false → ¬ qm.QueryText = "" → fetch = Except.ok body →
        decodeNumericBody (sanitize body) = Except.ok pvdata →
        (0 ≤ qm.UnitConversion ∧ qm.UnitConversion ≤ 7) →
        (0 ≤ qm.Transform ∧ qm.Transform ≤ 6) →
        ∀ fr ∈ resp.Frames, ∀ fd ∈ fr.Fields,
          fd.fdata.len = (if 1 ≤ qm.Transform ∧ qm.Transform ≤ 5
                          then (pvdata.map PVDataset.data).flatten.length - 1
                          else (pvdata.map PVDataset.data).flatten.length)) ∧
      (∀ body pvsdata m, qm.Hide = false → ¬ qm.QueryText = "" → fetch = Except.ok body →
        decodeNumericBody (sanitize body) = Except.error (DecErr.typeMismatch m) →
        decodeStringBody (sanitize body) = Except.ok pvsdata →
        ∀ fr ∈ resp.Frames, ∀ fd ∈ fr.Fields,
          fd.fdata.len = (pvsdata.map PVStringDataset.data).flatten.length) := by
  intro qm fromT toT mdp fetch resp h
  obtain ⟨hwf, herr⟩ := query_resp_invariant qm fromT toT mdp fetch resp h
  refine ⟨hwf, herr, ?_, ?_, ?_, ?_, ?_, ?_⟩
  · intro h1 h2
    rw [query_emptyText_eq qm fromT toT mdp fetch h1 h2] at h
    exact (Option.some.inj h).symm
  · intro e h1 h2 hfetch
    subst hfetch
    rw [query_fetchErr_eq qm fromT toT mdp e h1 h2] at h
    exact (Option.some.inj h).symm
  · intro body m h1 h2 hfetch hdec
    subst hfetch
    rw [query_ok_eq qm fromT toT mdp body h1 h2,
        queryAfterDecode_otherErr qm fromT toT (sanitize body) m hdec] at h
    exact (Option.some.inj h).symm
  · intro body m e h1 h2 hfetch hdec hs
    subst hfetch
    rw [query_ok_eq qm fromT toT mdp body h1 h2,
        queryAfterDecode_fallback_err qm fromT toT (sanitize body) m e hdec hs] at h
    exact (Option.some.inj h).symm
  · intro body pvdata h1 h2 hfetch hdec hucv htrv fr hfr fd hfd
    subst hfetch
    rw [query_ok_eq qm fromT toT mdp body h1 h2,
        queryAfterDecode_numOk qm fromT toT (sanitize body) pvdata hdec] at h
    obtain ⟨values, hvs, hlenv⟩ :=
      convertSamples_valid qm.UnitConversion hucv ((pvdata.map PVDataset.data).flatten)
    cases ha : applyTransform qm.Transform
        (((pvdata.map PVDataset.data).flatten).map
          (fun r => sampleTime qm.Transform r.Secs r.Nanos)) values with
    | none =>
      rw [numericStage_panic qm fromT toT pvdata values hvs ha] at h
      simp at h
    | some res =>
      cases res with
      | error e =>
        exact absurd ha (applyTransform_valid_no_error qm.Transform _ values htrv e)
      | ok pair =>
        obtain ⟨ts', vs'⟩ := pair
        rw [numericStage_ok_frame qm fromT toT pvdata values ts' vs' hvs ha] at h
        have hr := Option.some.inj h
        subst hr
        have hlen := applyTransform_ok_len qm.Transform _ ts' values vs'
          (by simp only [List.length_map, hlenv]) ha
        have hts : ts'.length = (if 1 ≤ qm.Transform ∧ qm.Transform ≤ 5
            then (pvdata.map PVDataset.data).flatten.length - 1
            else (pvdata.map PVDataset.data).flatten.length) := by
          have h2l := hlen.2
          split_ifs at h2l ⊢ with hcond
          · simpa [length_comp_map, Function.comp_def] using h2l
          · simpa [length_comp_map, Function.comp_def] using h2l
        simp at hfr
        subst hfr
        simp at hfd
        rcases hfd with hfd | hfd <;> subst hfd <;>
          simp [FieldData.len, hts, hlen.1.symm.trans hts]
  · intro body pvsdata m h1 h2 hfetch hdec hs fr hfr fd hfd
    subst hfetch
    rw [query_ok_eq qm fromT toT mdp body h1 h2,
        queryAfterDecode_fallback_ok qm fromT toT (sanitize body) m pvsdata hdec hs] at h
    have hr := Option.some.inj h
    subst hr
    simp [stringStage] at hfr
    subst hfr
    simp at hfd
    rcases hfd with hfd | hfd <;> subst hfd <;>
      simp [FieldData.len, length_comp_map, Function.comp_def, List.length_map]

def qmC1w : queryModel :=
  { Format := "", QueryText := "k0:met:tmp", UnitConversion := 0, Transform := 0,
    DisableBinning := false, IntervalMs := 0, MaxDataPoints := 0, OrgId := 0,
    RefId := "W", Hide := false }

theorem C1_witness :
    query qmC1w 0 600 100 (Except.error ("dial tcp: timeout")) =
      some { Frames := [emptyFrame 0 600], Error := some ("dial tcp: timeout") } ∧
    ({ Frames := [emptyFrame 0 600], Error := some ("dial tcp: timeout") } : DataResponse).Frames =
      [emptyFrame 0 600] := by
  have h : query qmC1w 0 600 100 (Except.error ("dial tcp: timeout")) =
      some { Frames := [emptyFrame 0 600], Error := some ("dial tcp: timeout") } :=
    query_fetchErr_eq qmC1w 0 600 100 ("dial tcp: timeout") rfl (by decide)
  exact ⟨h, (C1_response_wellformed qmC1w 0 600 100 _ _ h).2.1 (by simp)⟩

end EPICS
